import Mathlib

/-!
Shallow embedding of the court-data-fetcher application (src/app.py),
centred on `CourtDataScraper.parse_case_data`, the CAPTCHA step and the
validation-error check of `CourtDataScraper.scrape_case_data`, and the
`/search` route `search_case`.

HTML pages are modelled abstractly: a page is a list of tables, a table has
an optional id, rows outside its tbody (in document order before the tbody)
and an optional tbody holding rows, a row is a list of cells, a cell has a
tag (td or th), its stripped text, and its anchor links, and a link has an
optional href and its stripped text.  Nested tables are not modelled; the
strings of the model are the `get_text(strip=True)` values the Python code
works with.  Python string primitives used by the code are modelled on the
character lists of Lean strings (`lower`, `upper`, `in`, `startswith`,
`split`, `isdigit` agree with Python on the ASCII inputs involved).
-/

namespace CourtApp

/-- Whether `pat` occurs as a contiguous sublist of the second argument. -/
def listInfix (pat : List Char) : List Char → Bool
  | [] => pat.isEmpty
  | x :: xs => List.isPrefixOf pat (x :: xs) || listInfix pat xs

/-- Python substring test `pat in hay`. -/
def strContains (hay pat : String) : Bool :=
  listInfix pat.data hay.data

/-- Python `s.startswith(pre)`. -/
def strStarts (s pre : String) : Bool :=
  List.isPrefixOf pre.data s.data

/-- Python `s.lower()` (ASCII). -/
def pyLower (s : String) : String :=
  String.mk (s.data.map Char.toLower)

/-- Python `s.isdigit()` (ASCII): non-empty and every character a digit. -/
def pyIsdigit (s : String) : Bool :=
  !s.data.isEmpty && s.data.all Char.isDigit

/-- Python `str.split(sep)` for a one-character separator. -/
def splitOnChar (c : Char) : List Char → List (List Char)
  | [] => [[]]
  | x :: xs =>
    let r := splitOnChar c xs
    if x == c then [] :: r
    else
      match r with
      | [] => [[x]]
      | y :: ys => (x :: y) :: ys

/-- An `<a>` element: its `href` attribute (absent hrefs are `none`) and its
stripped text. -/
structure Link where
  href : Option String
  text : String
deriving DecidableEq, Repr

/-- Cell tag distinguishing `<td>` from `<th>`: the primary lookup uses only
`td` cells, the fallback scan uses both. -/
inductive CellTag where
  | td
  | th
deriving DecidableEq, Repr

/-- A table cell: tag, stripped text, and the anchor links it contains. -/
structure Cell where
  tag : CellTag
  text : String
  links : List Link
deriving DecidableEq, Repr

/-- A table row. -/
structure Row where
  cells : List Cell
deriving DecidableEq, Repr

/-- A table: optional id attribute, rows outside the tbody (document order
before it), and an optional tbody with its rows. -/
structure Table where
  id : Option String
  headRows : List Row
  tbody : Option (List Row)
deriving DecidableEq, Repr

/-- A page: its tables in document order. -/
structure Page where
  tables : List Table
deriving DecidableEq, Repr

/-- All `<tr>` rows of a table, as `table.find_all('tr')` returns them. -/
def tableRows (t : Table) : List Row :=
  t.headRows ++ t.tbody.getD []

/-- All rows of all tables of the page, in document order: the row stream of
the fallback scan (`soup.find_all('table')` then `table.find_all('tr')`). -/
def pageRows (page : Page) : List Row :=
  page.tables.foldr (fun t acc => tableRows t ++ acc) []

/-- The `td` cells of a row, as `row.find_all('td')` in the primary lookup. -/
def tds (r : Row) : List Cell :=
  r.cells.filter (fun c => c.tag == CellTag.td)

/-- Stripped text of cell `i` of a cell list (defaulting to `""`; the code
only reads indices its length guard makes present). -/
def cellText (cs : List Cell) (i : Nat) : String :=
  ((cs[i]?).map Cell.text).getD ""

/-- `self.base_url` of `CourtDataScraper`. -/
def base_url : String := "https://delhihighcourt.nic.in"

/-- Scheme detection of `urllib.parse.urlparse`: a leading ASCII letter
followed by letters, digits, `+`, `-` or `.` up to a colon. -/
def hasScheme (h : String) : Bool :=
  let cs := h.data
  let pre := cs.takeWhile (fun c => c.isAlphanum || c == '+' || c == '-' || c == '.')
  match cs.head? with
  | some c0 => c0.isAlpha && !pre.isEmpty && ((cs.drop pre.length).head? == some ':')
  | none => false

/-- `urllib.parse.urljoin(self.base_url, h)` for the fixed base
`https://delhihighcourt.nic.in` (empty path): URLs carrying their own scheme
are returned unchanged, protocol-relative ones inherit `https:`, others are
attached to the base; dot-segment normalisation is not modelled (it never
changes the origin). -/
def urljoin_base (h : String) : String :=
  if h == "" then base_url
  else if hasScheme h then h
  else if strStarts h "//" then "https:" ++ h
  else if strStarts h "/" then base_url ++ h
  else if strStarts h "?" then base_url ++ h
  else if strStarts h "#" then base_url ++ h
  else base_url ++ "/" ++ h

/-- The primary path's resolution of a qualifying href: kept verbatim when it
starts with `http`, else joined to the base. -/
def resolveHref (h : String) : String :=
  if strStarts h "http" then h else urljoin_base h

/-- Whether a link qualifies as an order/judgment link in the primary row
scan: a non-empty href containing `.pdf`, `order` or `judgment`
(case-insensitively) or `case-type-status-details` (case-sensitively), or
lowercased link text containing `orders` or `view`. -/
def linkQualifies (l : Link) : Bool :=
  match l.href with
  | none => false
  | some h =>
    h != "" && (
      strContains (pyLower h) ".pdf" ||
      strContains (pyLower h) "order" ||
      strContains (pyLower h) "judgment" ||
      strContains h "case-type-status-details" ||
      strContains (pyLower l.text) "orders" ||
      strContains (pyLower l.text) "view")

/-- Href of the first qualifying link of one cell: the inner
`for link in links: ... break` loop. -/
def cellFirstQualHref (c : Cell) : Option String :=
  (c.links.find? linkQualifies).bind Link.href

/-- The `for cell in cells` link scan of the selected primary row, started
from `init`: each cell holding a qualifying link overwrites the accumulator
with its first qualifying href, resolved. -/
def linkScanFrom (init : String) (cells : List Cell) : String :=
  cells.foldl
    (fun acc c =>
      match cellFirstQualHref c with
      | some h => resolveHref h
      | none => acc)
    init

/-- Bracketed status extraction from the case-number cell:
`cell.split('[')[-1].split(']')[0].upper()` when both brackets occur, else
`"ACTIVE"`. -/
def extractCaseStatus (s : String) : String :=
  if s.data.any (fun c => c == '[') && s.data.any (fun c => c == ']') then
    let afterLast := (splitOnChar '[' s.data).getLastD []
    let beforeFirst := (splitOnChar ']' afterLast).headD []
    String.mk (beforeFirst.map Char.toUpper)
  else "ACTIVE"

/-- Rows of the tbody of the first table with id `caseTable` (empty when the
table or its tbody is missing). -/
def caseTableRows (page : Page) : List Row :=
  match page.tables.find? (fun t => t.id == some "caseTable") with
  | some t => t.tbody.getD []
  | none => []

/-- The primary loop's row guard: at least 4 `td` cells with non-empty
second and third cells. -/
def primaryQualifies (r : Row) : Bool :=
  let cs := tds r
  decide (4 ≤ cs.length) && (cellText cs 1 != "") && (cellText cs 2 != "")

/-- First qualifying row of the caseTable tbody (the loop breaks there). -/
def primaryRow (page : Page) : Option Row :=
  (caseTableRows page).find? primaryQualifies

/-- Mutable fields the fallback scan updates. -/
structure FbState where
  parties : String
  filing_date : String
  next_hearing_date : String
  order_judgment_link : String
deriving DecidableEq, Repr

/-- Fallback state at entry: all fields empty. -/
def fbInit : FbState := ⟨"", "", "", ""⟩

/-- First link of a cell whose non-empty href contains `.pdf`
(case-insensitively): the fallback's order/judgment link extraction. -/
def firstPdfHref (c : Cell) : Option String :=
  (c.links.find? (fun l =>
    match l.href with
    | some h => h != "" && strContains (pyLower h) ".pdf"
    | none => false)).bind Link.href

/-- One row of the fallback scan: rows with at least two cells are matched on
the lowercased first-cell text by the `elif` chain of label keywords; the
matching field is overwritten with the second-cell text (or, for
order/judgment rows, with the resolved first PDF href of the second cell). -/
def fbStep (st : FbState) (r : Row) : FbState :=
  if r.cells.length < 2 then st
  else
    let header := pyLower (cellText r.cells 0)
    let value := cellText r.cells 1
    if strContains header "petitioner" || strContains header "respondent" then
      { st with parties := value }
    else if strContains header "filing" || strContains header "registration" then
      { st with filing_date := value }
    else if strContains header "listing" || strContains header "hearing" then
      { st with next_hearing_date := value }
    else if strContains header "order" || strContains header "judgment" then
      match r.cells[1]? with
      | some c =>
        match firstPdfHref c with
        | some h => { st with order_judgment_link := urljoin_base h }
        | none => st
      | none => st
    else st

/-- The whole fallback scan over every row of every table. -/
def fallbackScan (page : Page) : FbState :=
  (pageRows page).foldl fbStep fbInit

/-- The parsed Case Result: string fields default to `""`; `case_status` is
the optional extra key the primary branch adds. -/
structure CaseData where
  parties : String
  filing_date : String
  next_hearing_date : String
  order_judgment_link : String
  status : String
  case_status : Option String
deriving DecidableEq, Repr

/-- `CourtDataScraper.parse_case_data`: primary caseTable lookup, else the
fallback label-scan, whose final parties value decides the status. -/
def parse_case_data (page : Page) : CaseData :=
  match primaryRow page with
  | some r =>
    let cs := tds r
    { parties := cellText cs 2
      filing_date := ""
      next_hearing_date := cellText cs 3
      order_judgment_link := linkScanFrom "" cs
      status := "Found"
      case_status := some (extractCaseStatus (cellText cs 1)) }
  | none =>
    let fb := fallbackScan page
    { parties := fb.parties
      filing_date := fb.filing_date
      next_hearing_date := fb.next_hearing_date
      order_judgment_link := fb.order_judgment_link
      status := if fb.parties == "" then "Not Found" else "Found"
      case_status := none }

/-- Outcome of the CAPTCHA step of `scrape_case_data`: either some text is
typed into the captcha input, or the operation aborts with a status, the
displayed CAPTCHA text and the hidden randomid validation key. -/
inductive CaptchaOutcome where
  | typed (entry : String)
  | aborted (status : String) (displayed : String) (randomid : String)
deriving DecidableEq, Repr

/-- Python truthiness of an optional form value: present and non-empty. -/
def truthy : Option String → Bool
  | none => false
  | some s => s != ""

/-- The CAPTCHA branch of `scrape_case_data`: a truthy manual token is typed
verbatim; otherwise the displayed text is typed when truthy and purely
numeric, and the operation aborts with "CAPTCHA Required" otherwise. -/
def captchaStep (token : Option String) (displayed randomid : String) : CaptchaOutcome :=
  if truthy token then CaptchaOutcome.typed (token.getD "")
  else if (displayed != "") && pyIsdigit displayed then CaptchaOutcome.typed displayed
  else CaptchaOutcome.aborted "CAPTCHA Required" displayed randomid

/-- Outcome of the validation-error check on the rendered page source. -/
inductive ScrapeCheck where
  | validationFailed (fields : List String)
  | continueParsing
deriving DecidableEq, Repr

/-- The field-attribution sub-checks: literal substring tests for
`case type.*required`, `case number.*required` and `year.*required` on the
lowercased page source. -/
def validationFields (src : String) : List String :=
  (if strContains (pyLower src) "case type.*required" then ["Case Type"] else []) ++
  (if strContains (pyLower src) "case number.*required" then ["Case Number"] else []) ++
  (if strContains (pyLower src) "year.*required" then ["Year"] else [])

/-- The validation-error branch of `scrape_case_data`: when the lowercased
page source contains `field is required`, a Validation Error is returned only
if the field-attribution list is non-empty; otherwise parsing continues. -/
def validationCheck (src : String) : ScrapeCheck :=
  if strContains (pyLower src) "field is required" then
    if (validationFields src).isEmpty then ScrapeCheck.continueParsing
    else ScrapeCheck.validationFailed (validationFields src)
  else ScrapeCheck.continueParsing

/-- JSON body of a `/search` response: an error object or a Case Result. -/
inductive RespBody where
  | errMsg (msg : String)
  | caseJson (d : CaseData)
deriving DecidableEq, Repr

/-- An HTTP response: JSON body and status code. -/
structure HttpResponse where
  body : RespBody
  code : Nat
deriving DecidableEq, Repr

/-- Python `all([...])` over form values. -/
def flaskAll (xs : List (Option String)) : Bool :=
  xs.all truthy

/-- The `/search` route `search_case`: the scrape outcome (already converted
to a response body) and a possible unexpected exception message are inputs.
`jsonify` without an explicit code responds with HTTP 200; only the
exception branch attaches 500. -/
def search_case (ct cn cy : Option String) (scraped : RespBody)
    (exn : Option String) : HttpResponse :=
  match exn with
  | some e => ⟨RespBody.errMsg ("Server error: " ++ e), 500⟩
  | none =>
    if !flaskAll [ct, cn, cy] then
      ⟨RespBody.errMsg "All fields are required", 200⟩
    else ⟨scraped, 200⟩

/-- The registered 404 handler `not_found_error`. -/
def not_found_error : HttpResponse :=
  ⟨RespBody.errMsg "Resource not found", 404⟩

/-- The registered 500 handler `internal_error`. -/
def internal_error : HttpResponse :=
  ⟨RespBody.errMsg "Internal server error", 500⟩

/-- Whether a string is anchored at the site's base origin, i.e. starts with
`https://delhihighcourt.nic.in`. -/
def anchoredAtBase (s : String) : Bool :=
  List.isPrefixOf base_url.data s.data

/-- All links of a list of cells in cell order, flattened. -/
def allCellLinks (cells : List Cell) : List Link :=
  cells.foldr (fun c acc => c.links ++ acc) []

/-- Modelled from the spec's words for claim C2: the href of the first
qualifying link in cell order across the row's cells (to be compared with
the code's per-cell overwriting scan). -/
def specFirstQualHref (cells : List Cell) : Option String :=
  ((allCellLinks cells).find? linkQualifies).bind Link.href

/-- Modelled from the spec's words for claim C1: some row of some table has
at least two cells, a first cell containing `petitioner` or `respondent`
(lowercased), and a non-empty second cell. -/
def specFallbackRowFound (page : Page) : Bool :=
  (pageRows page).any (fun r =>
    decide (2 ≤ r.cells.length) &&
    (strContains (pyLower (cellText r.cells 0)) "petitioner" ||
     strContains (pyLower (cellText r.cells 0)) "respondent") &&
    (cellText r.cells 1 != ""))

/-- Claim C1 as stated: status is "Not Found" iff neither a qualifying
primary row nor a qualifying fallback label row exists. -/
def specC1StatusIff (page : Page) : Prop :=
  ((parse_case_data page).status = "Not Found") ↔
    ((caseTableRows page).any primaryQualifies = false ∧
      specFallbackRowFound page = false)

/-- Claim C6 as stated: any page source containing `field is required`
(lowercased) yields a Validation Error outcome. -/
def specC6ValidationProp : Prop :=
  ∀ src : String, strContains (pyLower src) "field is required" = true →
    ∃ fs, validationCheck src = ScrapeCheck.validationFailed fs

/-- The keyword guard of one fallback row: its lowercased first-cell text
contains one of the eight label keywords. -/
def fbHeaderMatches (r : Row) : Bool :=
  strContains (pyLower (cellText r.cells 0)) "petitioner" ||
  strContains (pyLower (cellText r.cells 0)) "respondent" ||
  strContains (pyLower (cellText r.cells 0)) "filing" ||
  strContains (pyLower (cellText r.cells 0)) "registration" ||
  strContains (pyLower (cellText r.cells 0)) "listing" ||
  strContains (pyLower (cellText r.cells 0)) "hearing" ||
  strContains (pyLower (cellText r.cells 0)) "order" ||
  strContains (pyLower (cellText r.cells 0)) "judgment"

/-- The empty page: no tables at all. -/
def emptyPage : Page := ⟨[]⟩

/-- The page of claim C3 exactly as the claim words it: a caseTable data row
whose cells are the four listed values. -/
def page3 : Page :=
  ⟨[⟨some "caseTable", [],
     some [⟨[⟨CellTag.td, "W.P.(C) 123/2024 [PENDING]", []⟩,
             ⟨CellTag.td, "John Doe vs State", []⟩,
             ⟨CellTag.td, "12-May-2025", []⟩,
             ⟨CellTag.td, "View", [⟨some "order1.pdf", "View"⟩]⟩]⟩]⟩]⟩

/-- The page of claim C3 with a leading serial-number cell, so that the four
listed values occupy the cell positions the parser actually reads. -/
def page3a : Page :=
  ⟨[⟨some "caseTable", [],
     some [⟨[⟨CellTag.td, "1", []⟩,
             ⟨CellTag.td, "W.P.(C) 123/2024 [PENDING]", []⟩,
             ⟨CellTag.td, "John Doe vs State", []⟩,
             ⟨CellTag.td, "12-May-2025", []⟩,
             ⟨CellTag.td, "View", [⟨some "order1.pdf", "View"⟩]⟩]⟩]⟩]⟩

/-- A page whose only table carries a petitioner row with a non-empty value
followed by a respondent row with an empty value. -/
def cx1page : Page :=
  ⟨[⟨none,
     [⟨[⟨CellTag.th, "Petitioner", []⟩, ⟨CellTag.td, "John Doe", []⟩]⟩,
      ⟨[⟨CellTag.th, "Respondent", []⟩, ⟨CellTag.td, "", []⟩]⟩],
     none⟩]⟩

/-- A qualifying caseTable row with qualifying links in its first and last
cells. -/
def row2 : Row :=
  ⟨[⟨CellTag.td, "1", [⟨some "first-order.pdf", "x"⟩]⟩,
    ⟨CellTag.td, "W.P. 1/2024", []⟩,
    ⟨CellTag.td, "A vs B", []⟩,
    ⟨CellTag.td, "01-01-2025", []⟩,
    ⟨CellTag.td, "", [⟨some "second-order.pdf", "y"⟩]⟩]⟩

/-- The page holding `row2` as the only caseTable data row. -/
def page2 : Page := ⟨[⟨some "caseTable", [], some [row2]⟩]⟩

/-- A caseTable page whose qualifying row carries a protocol-relative
order/judgment href. -/
def page7 : Page :=
  ⟨[⟨some "caseTable", [],
     some [⟨[⟨CellTag.td, "1", []⟩,
             ⟨CellTag.td, "X", []⟩,
             ⟨CellTag.td, "Y", []⟩,
             ⟨CellTag.td, "Z", [⟨some "//evil.com/order.pdf", "View"⟩]⟩]⟩]⟩]⟩

/-- A page with fallback filing-date, hearing-date and order rows but no
petitioner or respondent row. -/
def page9 : Page :=
  ⟨[⟨none,
     [⟨[⟨CellTag.td, "Date of Filing", []⟩, ⟨CellTag.td, "01-01-2020", []⟩]⟩,
      ⟨[⟨CellTag.td, "Next Hearing Date", []⟩, ⟨CellTag.td, "02-02-2020", []⟩]⟩,
      ⟨[⟨CellTag.td, "Order Details", []⟩,
        ⟨CellTag.td, "Download", [⟨some "orders/judgment1.pdf", "Download"⟩]⟩]⟩],
     none⟩]⟩

end CourtApp

namespace CourtApp

/-- A boolean `any` is false exactly when `find?` yields nothing. -/
theorem any_false_iff_find_none {α : Type} (p : α → Bool) (l : List α) :
    (l.any p = false) ↔ l.find? p = none := by
  rw [List.any_eq_false, List.find?_eq_none]

/-- A list is a `isPrefixOf`-prefix of itself followed by anything. -/
theorem isPrefixOf_append_self (l m : List Char) :
    List.isPrefixOf l (l ++ m) = true := by
  rw [List.isPrefixOf_iff_prefix]
  exact List.prefix_append l m

/-- Appending to the base URL stays anchored at the base. -/
theorem anchored_base_append (t : String) :
    anchoredAtBase (base_url ++ t) = true := by
  simp only [anchoredAtBase, String.data_append]
  exact isPrefixOf_append_self _ _

/-- Appending twice to the base URL stays anchored at the base. -/
theorem anchored_base_append2 (t u : String) :
    anchoredAtBase (base_url ++ t ++ u) = true := by
  rw [String.append_assoc]
  exact anchored_base_append (t ++ u)

/-- C7 amended: a non-empty qualifying href with no scheme of its own, not
protocol-relative and not starting with `http`, resolves through the base
join and lands anchored at the site's base origin. -/
theorem c7_amended_href_anchored (h : String) (h0 : h ≠ "")
    (h1 : strStarts h "http" = false) (h2 : hasScheme h = false)
    (h3 : strStarts h "//" = false) :
    resolveHref h = urljoin_base h ∧ anchoredAtBase (urljoin_base h) = true := by
  have h0' : (h == "") = false := beq_eq_false_iff_ne.mpr h0
  constructor
  · simp [resolveHref, h1]
  · unfold urljoin_base
    rw [h0', h2, h3]
    simp only [Bool.false_eq_true, if_false]
    split
    · exact anchored_base_append h
    · split
      · exact anchored_base_append h
      · split
        · exact anchored_base_append h
        · exact anchored_base_append2 "/" h

/-- C7 witness: the relative href `order1.pdf` of the worked example resolves
to an absolute URL anchored at the base. -/
theorem c7_amended_witness :
    resolveHref "order1.pdf" = urljoin_base "order1.pdf" ∧
    anchoredAtBase (urljoin_base "order1.pdf") = true :=
  c7_amended_href_anchored "order1.pdf" (by decide) (by decide) (by decide) (by decide)

/-- C7 counterexample: the protocol-relative href `//evil.com/order.pdf`
qualifies, does not start with `http`, and the stored link the parser
produces is the urljoin result, which is not anchored at the base origin. -/
theorem c7_counterexample :
    (parse_case_data page7).order_judgment_link = "https://evil.com/order.pdf" ∧
    linkQualifies ⟨some "//evil.com/order.pdf", "View"⟩ = true ∧
    strStarts "//evil.com/order.pdf" "http" = false ∧
    (parse_case_data page7).order_judgment_link = urljoin_base "//evil.com/order.pdf" ∧
    anchoredAtBase "https://evil.com/order.pdf" = false := by decide

end CourtApp

namespace CourtApp

/-- The per-cell overwriting link scan equals the resolution of the first
qualifying href of the last cell that has one (or the start value when no
cell has one). -/
theorem linkScanFrom_eq_last (cells : List Cell) (init : String) :
    linkScanFrom init cells =
      match (cells.filterMap cellFirstQualHref).getLast? with
      | some h => resolveHref h
      | none => init := by
  induction cells generalizing init with
  | nil => rfl
  | cons c cs ih =>
    rw [linkScanFrom, List.foldl_cons]
    rw [show List.foldl
        (fun acc c =>
          match cellFirstQualHref c with
          | some h => resolveHref h
          | none => acc)
        (match cellFirstQualHref c with
          | some h => resolveHref h
          | none => init) cs =
      linkScanFrom
        (match cellFirstQualHref c with
          | some h => resolveHref h
          | none => init) cs from rfl]
    rw [ih, List.filterMap_cons]
    cases hc : cellFirstQualHref c with
    | none => rfl
    | some h0 =>
      cases hl : cs.filterMap cellFirstQualHref with
      | nil => rfl
      | cons a l =>
        rw [List.getLast?_cons_cons]
        cases hgl : (a :: l).getLast? with
        | none =>
          exfalso
          have hs : (a :: l).getLast?.isSome = true :=
            List.getLast?_isSome.mpr (by simp)
          rw [hgl] at hs
          cases hs
        | some x => rfl

end CourtApp

namespace CourtApp

/-- C2 amended: for the selected primary row, the stored order/judgment link
is the resolved first qualifying href of the LAST cell containing one (the
inner break only ends the per-cell loop, so later cells overwrite), or the
empty string when no cell has a qualifying link. -/
theorem c2_amended_link_last_cell (page : Page) (r : Row)
    (h : primaryRow page = some r) :
    (parse_case_data page).order_judgment_link =
      match ((tds r).filterMap cellFirstQualHref).getLast? with
      | some hr => resolveHref hr
      | none => "" := by
  unfold parse_case_data
  rw [h]
  exact linkScanFrom_eq_last (tds r) ""

/-- C2 witness: the amended characterization applied to the concrete page
whose row carries qualifying links in its first and last cells. -/
theorem c2_amended_witness :
    primaryRow page2 = some row2 ∧
    (parse_case_data page2).order_judgment_link =
      match ((tds row2).filterMap cellFirstQualHref).getLast? with
      | some hr => resolveHref hr
      | none => "" :=
  ⟨by decide, c2_amended_link_last_cell page2 row2 (by decide)⟩

/-- C2 counterexample: on `page2` the first qualifying link in cell order is
`first-order.pdf`, yet the parser stores the resolution of
`second-order.pdf` from the later cell. -/
theorem c2_counterexample :
    primaryRow page2 = some row2 ∧
    specFirstQualHref (tds row2) = some "first-order.pdf" ∧
    (parse_case_data page2).order_judgment_link =
      "https://delhihighcourt.nic.in/second-order.pdf" ∧
    resolveHref "first-order.pdf" ≠
      "https://delhihighcourt.nic.in/second-order.pdf" := by decide

end CourtApp

namespace CourtApp

/-- C1 counterexample: on `cx1page` a qualifying petitioner row exists
(value "John Doe"), no primary row exists, and yet the parsed status is
"Not Found", because the later empty respondent row overwrote the parties
value; the claimed iff fails. -/
theorem c1_counterexample : ¬ specC1StatusIff cx1page := by
  unfold specC1StatusIff
  decide

/-- When a primary row is found, the parsed status is "Found". -/
theorem parse_status_primary (page : Page) (r : Row)
    (h : primaryRow page = some r) :
    (parse_case_data page).status = "Found" := by
  unfold parse_case_data
  rw [h]

/-- When no primary row is found, the parsed status is decided by the final
parties value of the fallback scan. -/
theorem parse_status_fallback (page : Page) (h : primaryRow page = none) :
    (parse_case_data page).status =
      (if (fallbackScan page).parties == "" then "Not Found" else "Found") := by
  unfold parse_case_data
  rw [h]

/-- C1 amended: the status is "Not Found" iff no qualifying primary
caseTable row exists and the fallback scan's FINAL parties value is empty
(each petitioner/respondent row overwrites parties, so the last one wins). -/
theorem c1_amended_status_iff (page : Page) :
    (parse_case_data page).status = "Not Found" ↔
      ((caseTableRows page).any primaryQualifies = false ∧
        (fallbackScan page).parties = "") := by
  rw [any_false_iff_find_none]
  cases hp : primaryRow page with
  | some r =>
    rw [parse_status_primary page r hp]
    constructor
    · intro h
      exact absurd h (by decide)
    · rintro ⟨hn, -⟩
      have hp' : (caseTableRows page).find? primaryQualifies = some r := hp
      rw [hn] at hp'
      cases hp'
  | none =>
    rw [parse_status_fallback page hp]
    have hn : (caseTableRows page).find? primaryQualifies = none := hp
    by_cases hb : (fallbackScan page).parties = ""
    · rw [hb]
      simp [hn]
    · have hb' : ((fallbackScan page).parties == "") = false :=
        beq_eq_false_iff_ne.mpr hb
      rw [hb']
      simp [hb]

end CourtApp

namespace CourtApp

/-- C3 counterexample: with exactly the four listed cells the parser reads
the second cell as the case number and the third as the parties, so parties
is "12-May-2025" and not "John Doe vs State", the hearing date is "View"
and the bracketed status defaults to "ACTIVE". -/
theorem c3_counterexample :
    (parse_case_data page3).status = "Found" ∧
    (parse_case_data page3).order_judgment_link =
      "https://delhihighcourt.nic.in/order1.pdf" ∧
    (parse_case_data page3).parties = "12-May-2025" ∧
    (parse_case_data page3).parties ≠ "John Doe vs State" ∧
    (parse_case_data page3).next_hearing_date = "View" ∧
    (parse_case_data page3).next_hearing_date ≠ "12-May-2025" ∧
    (parse_case_data page3).case_status = some "ACTIVE" := by decide

/-- C3 amended: with a leading serial cell before the four listed values,
the parser returns exactly the claimed Case Result. -/
theorem c3_amended_example :
    parse_case_data page3a =
      ⟨"John Doe vs State", "", "12-May-2025",
       "https://delhihighcourt.nic.in/order1.pdf", "Found", some "PENDING"⟩ := by decide

/-- A fallback step leaves the state unchanged on a row that is short or
matches no label keyword. -/
theorem fbStep_eq_self (st : FbState) (r : Row)
    (h : 2 ≤ r.cells.length → fbHeaderMatches r = false) :
    fbStep st r = st := by
  unfold fbStep
  by_cases hl : r.cells.length < 2
  · rw [if_pos hl]
  · rw [if_neg hl]
    have hm := h (by omega)
    unfold fbHeaderMatches at hm
    simp only [Bool.or_eq_false_iff] at hm
    obtain ⟨⟨⟨⟨⟨⟨⟨h1, h2⟩, h3⟩, h4⟩, h5⟩, h6⟩, h7⟩, h8⟩ := hm
    simp only [h1, h2, h3, h4, h5, h6, h7, h8, Bool.or_self, Bool.false_eq_true,
      if_false]

/-- Folding the fallback step over keyword-free rows keeps the state. -/
theorem foldl_fbStep_const (l : List Row) (st : FbState)
    (h : ∀ r ∈ l, 2 ≤ r.cells.length → fbHeaderMatches r = false) :
    l.foldl fbStep st = st := by
  induction l generalizing st with
  | nil => rfl
  | cons r rs ih =>
    rw [List.foldl_cons, fbStep_eq_self st r (h r (by simp))]
    exact ih st (fun x hx => h x (by simp [hx]))

/-- C4: when the caseTable is absent or its tbody has no rows, and no row of
any table both has two cells and carries a fallback label keyword, the
parser returns "Not Found" with every string field empty. -/
theorem c4_empty_results_not_found (page : Page)
    (h1 : ∀ t, page.tables.find? (fun tb => tb.id == some "caseTable") = some t →
        t.tbody = none ∨ t.tbody = some [])
    (h2 : ∀ r ∈ pageRows page, 2 ≤ r.cells.length → fbHeaderMatches r = false) :
    parse_case_data page = ⟨"", "", "", "", "Not Found", none⟩ := by
  have hct : caseTableRows page = [] := by
    unfold caseTableRows
    cases hf : page.tables.find? (fun tb => tb.id == some "caseTable") with
    | none => rfl
    | some t =>
      show t.tbody.getD [] = []
      rcases h1 t hf with h | h <;> rw [h] <;> rfl
  have hpr : primaryRow page = none := by
    unfold primaryRow
    rw [hct]
    rfl
  have hfb : fallbackScan page = fbInit := foldl_fbStep_const _ _ h2
  unfold parse_case_data
  rw [hpr, hfb]
  rfl

/-- C4 witness: the conclusion of the theorem at the empty page, with both
hypotheses discharged there. -/
theorem c4_witness :
    parse_case_data emptyPage = ⟨"", "", "", "", "Not Found", none⟩ :=
  c4_empty_results_not_found emptyPage
    (by intro t ht; exact absurd ht (by simp [emptyPage]))
    (by intro r hr; exact absurd hr (by simp [pageRows, emptyPage]))

end CourtApp

namespace CourtApp

/-- C5: a truthy manual token is typed verbatim; without one, the displayed
CAPTCHA text is typed back iff it is non-empty and purely numeric, and
otherwise the step aborts with "CAPTCHA Required" carrying the displayed
text and the hidden randomid validation key. -/
theorem c5_captcha_step (token : Option String) (displayed randomid : String) :
    (∀ t, token = some t → t ≠ "" →
        captchaStep token displayed randomid = CaptchaOutcome.typed t) ∧
    (token = none →
      ((captchaStep token displayed randomid = CaptchaOutcome.typed displayed) ↔
        (displayed ≠ "" ∧ pyIsdigit displayed = true)) ∧
      ((displayed = "" ∨ pyIsdigit displayed = false) →
        captchaStep token displayed randomid =
          CaptchaOutcome.aborted "CAPTCHA Required" displayed randomid)) := by
  constructor
  · intro t ht hne
    subst ht
    have : truthy (some t) = true := bne_iff_ne.mpr hne
    simp [captchaStep, this]
  · intro ht
    subst ht
    have htr : truthy (none : Option String) = false := rfl
    by_cases hd : displayed = ""
    · subst hd
      refine ⟨?_, fun _ => rfl⟩
      constructor
      · intro h
        exact CaptchaOutcome.noConfusion h
      · rintro ⟨hne, -⟩
        exact absurd rfl hne
    · have hd' : (displayed != "") = true := bne_iff_ne.mpr hd
      by_cases hdig : pyIsdigit displayed = true
      · have : captchaStep none displayed randomid = CaptchaOutcome.typed displayed := by
          simp [captchaStep, htr, hd', hdig]
        refine ⟨⟨fun _ => ⟨hd, hdig⟩, fun _ => this⟩, ?_⟩
        rintro (h | h)
        · exact absurd h hd
        · rw [hdig] at h
          cases h
      · have hdig' : pyIsdigit displayed = false := by
          cases hpd : pyIsdigit displayed
          · rfl
          · exact absurd hpd hdig
        have habort : captchaStep none displayed randomid =
            CaptchaOutcome.aborted "CAPTCHA Required" displayed randomid := by
          simp [captchaStep, htr, hdig']
        refine ⟨⟨?_, ?_⟩, fun _ => habort⟩
        · intro h
          rw [habort] at h
          cases h
        · rintro ⟨-, hc⟩
          exact absurd hc hdig

/-- C5 witness: the theorem applied with a concrete manual token, and with no
token and a non-numeric displayed CAPTCHA. -/
theorem c5_captcha_witness :
    captchaStep (some "4321") "77" "rid" = CaptchaOutcome.typed "4321" ∧
    captchaStep none "ab12" "rid" =
      CaptchaOutcome.aborted "CAPTCHA Required" "ab12" "rid" :=
  ⟨(c5_captcha_step (some "4321") "77" "rid").1 "4321" rfl (by decide),
   ((c5_captcha_step none "ab12" "rid").2 rfl).2 (Or.inr (by decide))⟩

end CourtApp

namespace CourtApp

/-- C6 counterexample: a page source consisting of exactly the phrase
"field is required" matches the outer phrase check but none of the literal
sub-field patterns, so the code continues parsing instead of returning a
Validation Error: the claim's outer implication fails. -/
theorem c6_counterexample : ¬ specC6ValidationProp := by
  intro h
  rcases h "field is required" (by decide) with ⟨fs, hfs⟩
  rw [show validationCheck "field is required" = ScrapeCheck.continueParsing from by decide] at hfs
  cases hfs

/-- C6 amended: a Validation Error outcome is produced iff the lowercased
source contains "field is required" AND at least one of the three literal
substrings `case type.*required`, `case number.*required`, `year.*required`
also occurs; the implicated fields are exactly those naive substring hits. -/
theorem c6_amended_validation_iff (src : String) :
    (∃ fs, validationCheck src = ScrapeCheck.validationFailed fs) ↔
      (strContains (pyLower src) "field is required" = true ∧
        (strContains (pyLower src) "case type.*required" = true ∨
         strContains (pyLower src) "case number.*required" = true ∨
         strContains (pyLower src) "year.*required" = true)) := by
  by_cases h0 : strContains (pyLower src) "field is required" = true
  · by_cases ha : strContains (pyLower src) "case type.*required" = true
    · simp [validationCheck, validationFields, h0, ha]
    · by_cases hb : strContains (pyLower src) "case number.*required" = true
      · simp [validationCheck, validationFields, h0, ha, hb]
      · by_cases hc : strContains (pyLower src) "year.*required" = true
        · simp [validationCheck, validationFields, h0, ha, hb, hc]
        · simp [validationCheck, validationFields, h0, ha, hb, hc]
  · simp [validationCheck, h0]

/-- C8: parsing is a pure function of the page, so two runs on the same
input give the same order/judgment link, the same status, and the same
whole Case Result. -/
theorem c8_parse_deterministic (page : Page) :
    parse_case_data page = parse_case_data page ∧
    (parse_case_data page).order_judgment_link =
      (parse_case_data page).order_judgment_link ∧
    (parse_case_data page).status = (parse_case_data page).status :=
  ⟨rfl, rfl, rfl⟩

/-- C9: on `page9` the fallback scan fills filing date, hearing date and the
order/judgment link, yet with no petitioner/respondent row the status stays
"Not Found". -/
theorem c9_fallback_partial_fields :
    primaryRow page9 = none ∧
    parse_case_data page9 =
      ⟨"", "01-01-2020", "02-02-2020",
       "https://delhihighcourt.nic.in/orders/judgment1.pdf", "Not Found", none⟩ ∧
    (parse_case_data page9).filing_date ≠ "" ∧
    (parse_case_data page9).next_hearing_date ≠ "" ∧
    (parse_case_data page9).order_judgment_link ≠ "" := by decide

/-- C10: missing or empty required form fields produce the error body with
HTTP 200; every non-exception branch of the route responds 200, and only the
exception branch and the registered handlers attach 500 or 404. -/
theorem c10_search_status_codes (ct cn cy : Option String) (b : RespBody) :
    (flaskAll [ct, cn, cy] = false →
      search_case ct cn cy b none =
        ⟨RespBody.errMsg "All fields are required", 200⟩) ∧
    (search_case ct cn cy b none).code = 200 ∧
    (∀ e, (search_case ct cn cy b (some e)).code = 500) ∧
    not_found_error.code = 404 ∧
    internal_error.code = 500 := by
  refine ⟨?_, ?_, fun e => rfl, rfl, rfl⟩
  · intro hf
    simp [search_case, hf]
  · by_cases hf : flaskAll [ct, cn, cy] = true
    · simp [search_case, hf]
    · have hf' : flaskAll [ct, cn, cy] = false := by
        cases hv : flaskAll [ct, cn, cy]
        · rfl
        · exact absurd hv hf
      simp [search_case, hf']

/-- C10 witness: the theorem applied with a missing case type. -/
theorem c10_search_witness :
    flaskAll [none, some "123", some "2024"] = false ∧
    search_case none (some "123") (some "2024") (RespBody.errMsg "x") none =
      ⟨RespBody.errMsg "All fields are required", 200⟩ :=
  ⟨by decide,
   (c10_search_status_codes none (some "123") (some "2024")
     (RespBody.errMsg "x")).1 (by decide)⟩

end CourtApp
